import Mathlib

/-
Verification of the contract-comparison orchestration pipeline.

Shallow embedding of the Python sources:
  * src/models.py                                     (pydantic data model)
  * src/services/contract_comparison_service.py       (ContractComparisonService.compare)
  * src/infrastructure/agents/extraction.py           (OpenAIExtractionAgent.run, post-LLM part)
  * src/infrastructure/agents/contextualization.py    (LangChainContextualizationAgent.run, post-LLM part)

External collaborators (the injected parser, the two agents, and the
caller-supplied progress callback) are modelled as oracles: arbitrary
functions that either return a value or raise (Except.error = a Python
exception).  Observable interactions are recorded in an event log and the
wall clock (milliseconds, a Nat) advances by an oracle-chosen duration on
each collaborator call; the tracing collaborator and the progress callback
are modelled as non-blocking (no clock advance), following spec section 5.
-/

namespace ContractPipeline

/-- DocumentStructure (src/models.py lines 5-11).  The pydantic field
constraints (title min_length 1, sections min_length 1, full_text
min_length 10) are invariants of construction sites, not of the record. -/
structure DocumentStructure where
  title : String
  sections : List String
  full_text : String
  document_type : String
deriving Repr, DecidableEq

/-- ContextualizationResult (src/models.py lines 14-23).  A record of
corresponding_sections is a Python dict; modelled as an association list
of string keys to string values. -/
structure ContextualizationResult where
  original_structure : DocumentStructure
  amendment_structure : DocumentStructure
  corresponding_sections : List (List (String × String))
  analysis_notes : String
deriving Repr, DecidableEq

/-- ContractChangeResult (src/models.py lines 26-43), the raw record. -/
structure ContractChangeResult where
  sections_changed : List String
  topics_touched : List String
  summary_of_the_change : String
deriving Repr, DecidableEq

/-- The pydantic validation errors raised when constructing a
ContractChangeResult (src/models.py lines 26-43): sections_changed needs
min_length 1, topics_touched min_length 1, summary_of_the_change
min_length 50.  Pydantic reports every violated field by name. -/
def contractChangeResultErrors (sections_changed topics_touched : List String)
    (summary_of_the_change : String) : List String :=
  (if sections_changed.length < 1 then ["sections_changed"] else []) ++
  (if topics_touched.length < 1 then ["topics_touched"] else []) ++
  (if summary_of_the_change.length < 50 then ["summary_of_the_change"] else [])

/-- Constructing / model_validate-ing a ContractChangeResult: returns the
record when every constraint holds, otherwise the list of offending field
names (pydantic ValidationError). -/
def validateContractChangeResult (sections_changed topics_touched : List String)
    (summary_of_the_change : String) : Except (List String) ContractChangeResult :=
  if contractChangeResultErrors sections_changed topics_touched summary_of_the_change = [] then
    .ok ⟨sections_changed, topics_touched, summary_of_the_change⟩
  else
    .error (contractChangeResultErrors sections_changed topics_touched summary_of_the_change)

/-- Modelled from the spec: src/domain/models.py (the module the service
imports its models from) is not present in the tree; ProcessingResult is
taken from spec section 3 together with the sibling src/models.py lines
46-54 (which has the same fields except processing_time_ms) and the
adapters, which read result.processing_time_ms as an optional integer. -/
structure ProcessingResult where
  contract_id : String
  status : String
  result : Option ContractChangeResult
  error : Option String
  trace_id : Option String
  processing_time_ms : Option Nat
deriving Repr, DecidableEq

/- ------------------------------------------------------------------ -/
/- Extraction agent, post-LLM logic
   (src/infrastructure/agents/extraction.py lines 118-130).            -/
/- ------------------------------------------------------------------ -/

/-- The JSON payload parsed from the upstream model response, restricted
to the three keys the agent reads.  none models both a missing key and an
explicit null (dict.get returns None for both). -/
structure ExtractionPayload where
  sections_changed : Option (List String)
  topics_touched : Option (List String)
  summary_of_the_change : Option String
deriving Repr, DecidableEq

/-- The generic sentence substituted for a missing summary
(src/infrastructure/agents/extraction.py line 127). -/
def fallbackSummary : String := "Changes detected between contracts."

/-- Python parsed.get(key, []) or default: a missing key and an empty
list both fall back to the default (empty list is falsy). -/
def listOrDefault (v : Option (List String)) (d : List String) : List String :=
  match v with
  | none => d
  | some l => if l.isEmpty then d else l

/-- The tail of OpenAIExtractionAgent.run after the JSON payload parsed
(src/infrastructure/agents/extraction.py lines 123-130): substitute the
fallbacks, then construct ContractChangeResult; a pydantic
ValidationError is re-raised as ValueError with the offending fields. -/
def extractionAgentBuild (p : ExtractionPayload) : Except String ContractChangeResult :=
  match validateContractChangeResult
      (listOrDefault p.sections_changed ["General"])
      (listOrDefault p.topics_touched ["Contract Terms"])
      (p.summary_of_the_change.getD fallbackSummary) with
  | .ok r => .ok r
  | .error errs => .error ("Invalid extraction result: " ++ String.intercalate ", " errs)

/- ------------------------------------------------------------------ -/
/- Contextualization agent, post-LLM logic
   (src/infrastructure/agents/contextualization.py lines 116-134).     -/
/- ------------------------------------------------------------------ -/

/-- One record of the upstream model response for corresponding_sections,
restricted to the keys the conversion reads (dict.get with defaults). -/
structure UpstreamSectionMapping where
  original_section : Option String
  amendment_section : Option String
  status : Option String
deriving Repr, DecidableEq

/-- The dict built per record by LangChainContextualizationAgent.run
(src/infrastructure/agents/contextualization.py lines 117-122):
keys original_section, amendment_section and status, with defaults
empty-string, empty-string and modified. -/
def convertSectionMapping (s : UpstreamSectionMapping) : List (String × String) :=
  [("original_section", s.original_section.getD ""),
   ("amendment_section", s.amendment_section.getD ""),
   ("status", s.status.getD "modified")]

/-- The list comprehension over result.get with default []
(src/infrastructure/agents/contextualization.py lines 117-124). -/
def convertSectionMappings (l : List UpstreamSectionMapping) : List (List (String × String)) :=
  l.map convertSectionMapping

/-- The ContextualizationResult constructed by the agent
(src/infrastructure/agents/contextualization.py lines 127-132); the
pydantic constraints on ContextualizationResult never fail on typed
inputs, so construction always succeeds. -/
def contextualizationAgentBuild (original_doc amendment_doc : DocumentStructure)
    (upstream : List UpstreamSectionMapping) (notes : String) : ContextualizationResult :=
  ⟨original_doc, amendment_doc, convertSectionMappings upstream, notes⟩

/-- The record shape claimed by the spec for corresponding_sections
(spec section 3): exactly the fields original_section, amendment_section
and relationship, with relationship drawn from the four relationship
values.  Stated from the spec for comparison against the code. -/
def specRecordOk (r : List (String × String)) : Bool :=
  (r.map Prod.fst == ["original_section", "amendment_section", "relationship"]) &&
  (match r.lookup "relationship" with
   | some v => (["modified", "added", "removed", "unchanged"] : List String).contains v
   | none => false)

/- ------------------------------------------------------------------ -/
/- The orchestrator: ContractComparisonService.compare
   (src/services/contract_comparison_service.py lines 46-183).         -/
/- ------------------------------------------------------------------ -/

/-- Observable interactions of one compare call: collaborator stage
calls and invocations of the caller-supplied progress callback. -/
inductive Event where
  | parseEv (path : String) (docType : String)
  | ctxEv
  | extractEv
  | progressEv (step : String) (progress : Nat) (message : String) (status : String)
deriving Repr, DecidableEq

/-- State threaded through one compare call: the wall clock in
milliseconds and the chronological event log (oldest first). -/
structure PState where
  clock : Nat
  events : List Event
deriving Repr, DecidableEq

/-- The dict passed to the progress callback by report_progress
(src/services/contract_comparison_service.py lines 72-78). -/
structure ProgressUpdate where
  step : String
  progress : Nat
  message : String
  status : String
deriving Repr, DecidableEq

/-- Behaviours of the injected collaborators and of the environment:
each oracle either returns a value or raises (Except.error), and each
collaborator call consumes an oracle-chosen duration of wall-clock time.
newUuid models uuid.uuid4, traceId the tracing collaborator. -/
structure Env where
  parse : String → String → Except String DocumentStructure
  parseDuration : String → String → Nat
  ctxRun : DocumentStructure → DocumentStructure → Except String ContextualizationResult
  ctxDuration : Nat
  extractRun : ContextualizationResult → Except String ContractChangeResult
  extractDuration : Nat
  progressCallback : Option (ProgressUpdate → Except String Unit)
  newUuid : String
  traceId : Option String

/-- Append one event to the log. -/
def logEvent (e : Event) (s : PState) : PState :=
  { s with events := s.events ++ [e] }

/-- Advance the wall clock by d milliseconds. -/
def tick (d : Nat) (s : PState) : PState :=
  { s with clock := s.clock + d }

/-- report_progress (src/services/contract_comparison_service.py lines
70-78): when a callback was supplied it is invoked (and may raise,
uncaught); when none was supplied nothing happens.  Non-blocking per
spec section 5, so the clock does not advance. -/
def reportProgress (env : Env) (step : String) (progress : Nat) (message : String)
    (s : PState) : Except String Unit × PState :=
  match env.progressCallback with
  | none => (.ok (), s)
  | some cb =>
      (cb ⟨step, progress, message, "processing"⟩,
       logEvent (.progressEv step progress message "processing") s)

/-- One call of the injected parser (service lines 93-102 and 107-116);
the surrounding trace span is modelled as a no-op. -/
def runParse (env : Env) (path docType : String) (s : PState) :
    Except String DocumentStructure × PState :=
  (env.parse path docType, tick (env.parseDuration path docType) (logEvent (.parseEv path docType) s))

/-- One call of the contextualization agent (service lines 121-133). -/
def runCtx (env : Env) (o a : DocumentStructure) (s : PState) :
    Except String ContextualizationResult × PState :=
  (env.ctxRun o a, tick env.ctxDuration (logEvent .ctxEv s))

/-- One call of the extraction agent (service lines 138-148). -/
def runExtract (env : Env) (c : ContextualizationResult) (s : PState) :
    Except String ContractChangeResult × PState :=
  (env.extractRun c, tick env.extractDuration (logEvent .extractEv s))

/-- The explicit re-validation step (service line 157):
ContractChangeResult.model_validate(changes.model_dump()); a
ValidationError propagates as an exception. -/
def runValidation (changes : ContractChangeResult) (s : PState) :
    Except String ContractChangeResult × PState :=
  match validateContractChangeResult changes.sections_changed changes.topics_touched
      changes.summary_of_the_change with
  | .ok v => (.ok v, s)
  | .error errs => (.error ("validation error: " ++ String.intercalate ", " errs), s)

/-- Sequencing of effectful steps: an uncaught exception short-circuits
(Python control flow inside the try block). -/
def andThen {α β : Type} (x : Except String α × PState)
    (f : α → PState → Except String β × PState) : Except String β × PState :=
  match x with
  | (.error e, s) => (.error e, s)
  | (.ok a, s) => f a s

/-- The body of the try block of compare (service lines 90-171),
returning the success envelope or the first uncaught exception. -/
def tryBody (env : Env) (originalPath amendmentPath contractId : String)
    (startClock : Nat) (s0 : PState) : Except String ProcessingResult × PState :=
  andThen (reportProgress env "Step 1/5" 10 "Parsing original contract..." s0) fun _ s =>
  andThen (runParse env originalPath "original" s) fun originalDoc s =>
  andThen (reportProgress env "Step 1/5" 20 "Original contract parsed successfully" s) fun _ s =>
  andThen (reportProgress env "Step 2/5" 30 "Parsing amendment contract..." s) fun _ s =>
  andThen (runParse env amendmentPath "amendment" s) fun amendmentDoc s =>
  andThen (reportProgress env "Step 2/5" 40 "Amendment contract parsed successfully" s) fun _ s =>
  andThen (reportProgress env "Step 3/5" 50 "Contextualizing documents with AI..." s) fun _ s =>
  andThen (runCtx env originalDoc amendmentDoc s) fun contextualization s =>
  andThen (reportProgress env "Step 3/5" 60 "Contextualization complete" s) fun _ s =>
  andThen (reportProgress env "Step 4/5" 70 "Extracting changes with AI..." s) fun _ s =>
  andThen (runExtract env contextualization s) fun changes s =>
  andThen (reportProgress env "Step 4/5" 85 "Change extraction complete" s) fun _ s =>
  andThen (reportProgress env "Step 5/5" 90 "Validating results..." s) fun _ s =>
  andThen (runValidation changes s) fun validated s =>
  let processingTime := s.clock - startClock
  andThen (reportProgress env "Completed" 100 "Processing complete!" s) fun _ s =>
  (.ok { contract_id := contractId, status := "success", result := some validated,
         error := none, trace_id := env.traceId,
         processing_time_ms := some processingTime }, s)

/-- ContractComparisonService.compare (service lines 46-183): generate
the contract id when absent, record the start time, run the try body,
and translate any exception into the error envelope (except branch,
lines 173-183).  The outer Except is the Python call boundary: an
Except.error here would be an exception propagating to the caller. -/
def compare (env : Env) (originalPath amendmentPath : String)
    (contractId : Option String) (clock0 : Nat) : Except String ProcessingResult × PState :=
  let cid := contractId.getD env.newUuid
  match tryBody env originalPath amendmentPath cid clock0 ⟨clock0, []⟩ with
  | (.ok r, s) => (.ok r, s)
  | (.error e, s) =>
      (.ok { contract_id := cid, status := "error", result := none, error := some e,
             trace_id := env.traceId, processing_time_ms := some (s.clock - clock0) }, s)

/-- Events that are collaborator stage calls (parser and agents), as
opposed to progress-callback invocations. -/
def isStageEvent : Event → Bool
  | .parseEv _ _ => true
  | .ctxEv => true
  | .extractEv => true
  | .progressEv _ _ _ _ => false

/-- The subsequence of stage-call events of a log, in order. -/
def stageEvents (l : List Event) : List Event :=
  l.filter isStageEvent

/- ------------------------------------------------------------------ -/
/- Concrete witnesses: a deterministic stub environment mirroring the
   mock parser (src/infrastructure/parsers/mock_parser.py) and the
   deterministic stub agents of spec section 8 scenario 8.             -/
/- ------------------------------------------------------------------ -/

/-- The DocumentStructure returned by MockParser.parse
(src/infrastructure/parsers/mock_parser.py lines 11-23), with the
title-casing of document_type applied by hand for the two values used. -/
def sampleDoc (titled docType : String) : DocumentStructure :=
  ⟨"Mock " ++ titled ++ " Contract",
   ["Section 1", "Section 2", "Section 3"],
   "This is a mock " ++ docType ++ " contract for testing purposes.",
   docType⟩

/-- A 60-character summary, matching scenario 8 of spec section 8. -/
def sampleSummary : String :=
  "The amendment extends the contract duration to twenty-four."

/-- Stub extraction output for the witness runs. -/
def sampleChanges : ContractChangeResult :=
  ⟨["2. Terms"], ["Duration"], sampleSummary⟩

/-- Stub contextualization output for the witness runs. -/
def sampleCtx : ContextualizationResult :=
  contextualizationAgentBuild (sampleDoc "Original" "original") (sampleDoc "Amendment" "amendment")
    [⟨some "2. Terms", some "2. Terms (Amended)", some "modified"⟩]
    "The amendment modifies the Terms section."

/-- Deterministic stub environment: everything succeeds, no callback. -/
def baseEnv : Env where
  parse := fun _ docType =>
    .ok (sampleDoc (if docType = "original" then "Original" else "Amendment") docType)
  parseDuration := fun _ _ => 5
  ctxRun := fun _ _ => .ok sampleCtx
  ctxDuration := 7
  extractRun := fun _ => .ok sampleChanges
  extractDuration := 9
  progressCallback := none
  newUuid := "uuid-1234"
  traceId := some "trace-1"

/-- A progress callback that always raises. -/
def throwingCb : ProgressUpdate → Except String Unit :=
  fun _ => .error "callback boom"

/-- baseEnv with the always-raising callback installed. -/
def throwingEnv : Env :=
  { baseEnv with progressCallback := some throwingCb }

/-- baseEnv whose parser raises on the amendment document only. -/
def amendFailEnv : Env :=
  { baseEnv with
    parse := fun _ docType =>
      if docType = "amendment" then .error "cannot read amendment image"
      else .ok (sampleDoc "Original" docType) }

/-- An upstream extraction payload whose summary key is absent. -/
def missingSummaryPayload : ExtractionPayload :=
  ⟨some ["Section 1"], some ["Terms"], none⟩

/-- An upstream extraction payload missing sections and topics, with a
long enough summary. -/
def thinPayload : ExtractionPayload :=
  ⟨none, some [], some sampleSummary⟩

/-- An upstream section-mapping record with an unconstrained status. -/
def oddMapping : UpstreamSectionMapping :=
  ⟨some "1. Parties", some "1. Parties", some "rewritten-beyond-recognition"⟩

/-- An upstream section-mapping record with no status key. -/
def defaultMapping : UpstreamSectionMapping :=
  ⟨some "1. Parties", some "1. Parties", none⟩

/-- The envelope of the successful witness run of compare on baseEnv. -/
def baseResult : ProcessingResult :=
  ⟨"c1", "success", some sampleChanges, none, some "trace-1", some 26⟩

/-- The final state of the successful witness run of compare on baseEnv. -/
def baseFinal : PState :=
  ⟨26, [.parseEv "o.png" "original", .parseEv "a.png" "amendment", .ctxEv, .extractEv]⟩

/-- A summary of exactly 50 characters. -/
def fiftyA : String := String.mk (List.replicate 50 'A')

/- ------------------------------------------------------------------ -/
/- Helper lemmas about the pipeline combinators.                       -/
/- ------------------------------------------------------------------ -/

theorem andThen_ok_elim {α β : Type} {x : Except String α × PState}
    {f : α → PState → Except String β × PState} {b : β} {s' : PState}
    (h : andThen x f = (.ok b, s')) :
    ∃ a, x.1 = .ok a ∧ f a x.2 = (.ok b, s') := by
  rcases x with ⟨r, s⟩
  cases r with
  | error e => simp [andThen] at h
  | ok a => exact ⟨a, rfl, h⟩

theorem andThen_reportProgress {β : Type} (env : Env)
    (hcb : ∀ cb, env.progressCallback = some cb → ∀ u, cb u = .ok ())
    (st : String) (p : Nat) (m : String) (s : PState)
    (f : Unit → PState → Except String β × PState) :
    andThen (reportProgress env st p m s) f = f () (reportProgress env st p m s).2 := by
  cases hc : env.progressCallback with
  | none => simp [reportProgress, hc, andThen]
  | some cb => simp [reportProgress, hc, andThen, hcb cb hc]

theorem andThen_runParse_ok {β : Type} {env : Env} {p dt : String} {d : DocumentStructure}
    (h : env.parse p dt = .ok d) (s : PState)
    (f : DocumentStructure → PState → Except String β × PState) :
    andThen (runParse env p dt s) f = f d (runParse env p dt s).2 := by
  simp [runParse, andThen, h]

theorem andThen_runParse_error {β : Type} {env : Env} {p dt e : String}
    (h : env.parse p dt = .error e) (s : PState)
    (f : DocumentStructure → PState → Except String β × PState) :
    andThen (runParse env p dt s) f = (.error e, (runParse env p dt s).2) := by
  simp [runParse, andThen, h]

theorem reportProgress_clock (env : Env) (st : String) (p : Nat) (m : String) (s : PState) :
    (reportProgress env st p m s).2.clock = s.clock := by
  cases hc : env.progressCallback <;> simp [reportProgress, hc, logEvent]

theorem reportProgress_stage (env : Env) (st : String) (p : Nat) (m : String) (s : PState) :
    stageEvents (reportProgress env st p m s).2.events = stageEvents s.events := by
  cases hc : env.progressCallback <;>
    simp [reportProgress, hc, logEvent, stageEvents, List.filter_append, isStageEvent]

theorem runParse_stage (env : Env) (p dt : String) (s : PState) :
    stageEvents (runParse env p dt s).2.events = stageEvents s.events ++ [.parseEv p dt] := by
  simp [runParse, tick, logEvent, stageEvents, List.filter_append, isStageEvent]

theorem runCtx_stage (env : Env) (o a : DocumentStructure) (s : PState) :
    stageEvents (runCtx env o a s).2.events = stageEvents s.events ++ [.ctxEv] := by
  simp [runCtx, tick, logEvent, stageEvents, List.filter_append, isStageEvent]

theorem runExtract_stage (env : Env) (c : ContextualizationResult) (s : PState) :
    stageEvents (runExtract env c s).2.events = stageEvents s.events ++ [.extractEv] := by
  simp [runExtract, tick, logEvent, stageEvents, List.filter_append, isStageEvent]

theorem runValidation_snd (c : ContractChangeResult) (s : PState) :
    (runValidation c s).2 = s := by
  unfold runValidation
  split <;> rfl

theorem tryBody_ok_elim (env : Env) (p1 p2 cid : String) (sc : Nat) (s0 : PState)
    {r : ProcessingResult} {s : PState}
    (h : tryBody env p1 p2 cid sc s0 = (.ok r, s)) :
    ∃ v : ContractChangeResult,
      r = { contract_id := cid, status := "success", result := some v, error := none,
            trace_id := env.traceId, processing_time_ms := some (s.clock - sc) } ∧
      stageEvents s.events =
        stageEvents s0.events ++
          [.parseEv p1 "original", .parseEv p2 "amendment", .ctxEv, .extractEv] := by
  rw [tryBody] at h
  obtain ⟨u1, -, h⟩ := andThen_ok_elim h
  obtain ⟨d1, -, h⟩ := andThen_ok_elim h
  obtain ⟨u2, -, h⟩ := andThen_ok_elim h
  obtain ⟨u3, -, h⟩ := andThen_ok_elim h
  obtain ⟨d2, -, h⟩ := andThen_ok_elim h
  obtain ⟨u4, -, h⟩ := andThen_ok_elim h
  obtain ⟨u5, -, h⟩ := andThen_ok_elim h
  obtain ⟨cx, -, h⟩ := andThen_ok_elim h
  obtain ⟨u6, -, h⟩ := andThen_ok_elim h
  obtain ⟨u7, -, h⟩ := andThen_ok_elim h
  obtain ⟨ch, -, h⟩ := andThen_ok_elim h
  obtain ⟨u8, -, h⟩ := andThen_ok_elim h
  obtain ⟨u9, -, h⟩ := andThen_ok_elim h
  obtain ⟨v, -, h⟩ := andThen_ok_elim h
  obtain ⟨u10, -, h⟩ := andThen_ok_elim h
  simp only [Prod.mk.injEq, Except.ok.injEq] at h
  obtain ⟨hr, hs⟩ := h
  subst hs
  refine ⟨v, ?_, ?_⟩
  · rw [← hr]
    simp [reportProgress_clock]
  · simp [reportProgress_stage, runParse_stage, runCtx_stage, runExtract_stage,
      runValidation_snd]

theorem validateContractChangeResult_ok_elim {a b : List String} {c : String}
    {v : ContractChangeResult} (h : validateContractChangeResult a b c = .ok v) :
    v = ⟨a, b, c⟩ := by
  unfold validateContractChangeResult at h
  split at h
  · exact (Except.ok.inj h).symm
  · simp at h

/- ------------------------------------------------------------------ -/
/- Claim theorems.                                                     -/
/- ------------------------------------------------------------------ -/

/-- C1: for every pair of image references, every optional contract_id,
and every behaviour of the injected parser, agents and progress callback
(including any of them raising), ContractComparisonService.compare
returns a ProcessingResult and never propagates an exception (never an
Except.error at the call boundary). -/
theorem compare_never_raises (env : Env) (p1 p2 : String) (cid : Option String) (c0 : Nat) :
    ∃ (r : ProcessingResult) (s : PState), compare env p1 p2 cid c0 = (.ok r, s) := by
  rcases h : tryBody env p1 p2 (Option.getD cid env.newUuid) c0 ⟨c0, []⟩ with ⟨tres, ts⟩
  cases tres with
  | ok r => exact ⟨r, ts, by simp [compare, h]⟩
  | error e =>
      exact ⟨⟨Option.getD cid env.newUuid, "error", none, some e, env.traceId,
        some (ts.clock - c0)⟩, ts, by simp [compare, h]⟩

/-- C2: every ProcessingResult returned by compare satisfies mutual
exclusivity: exactly one of result and error is non-null, status equals
success exactly when result is non-null and error exactly when error is
non-null. -/
theorem compare_envelope_exclusive (env : Env) (p1 p2 : String) (cid : Option String)
    (c0 : Nat) (r : ProcessingResult) (s : PState)
    (h : compare env p1 p2 cid c0 = (.ok r, s)) :
    (r.result.isSome = true ∧ r.error = none ∨ r.result = none ∧ r.error.isSome = true) ∧
    (r.status = "success" ↔ r.result.isSome = true) ∧
    (r.status = "error" ↔ r.error.isSome = true) := by
  simp only [compare] at h
  rcases ht : tryBody env p1 p2 (Option.getD cid env.newUuid) c0 ⟨c0, []⟩ with ⟨tres, ts⟩
  rw [ht] at h
  cases tres with
  | ok tr =>
      simp only [Prod.mk.injEq, Except.ok.injEq] at h
      obtain ⟨hr, hs⟩ := h
      subst hr
      obtain ⟨v, hv, -⟩ := tryBody_ok_elim env p1 p2 (Option.getD cid env.newUuid) c0 ⟨c0, []⟩ ht
      subst hv
      refine ⟨Or.inl ⟨rfl, rfl⟩, ⟨fun _ => rfl, fun _ => rfl⟩, ?_⟩
      exact ⟨fun hx => absurd (show ("success" : String) = "error" from hx) (by decide),
             fun hx => absurd (show false = true from hx) (by decide)⟩
  | error e =>
      simp only [Prod.mk.injEq, Except.ok.injEq] at h
      obtain ⟨hr, hs⟩ := h
      subst hr
      refine ⟨Or.inr ⟨rfl, rfl⟩, ?_, ⟨fun _ => rfl, fun _ => rfl⟩⟩
      exact ⟨fun hx => absurd (show ("error" : String) = "success" from hx) (by decide),
             fun hx => absurd (show false = true from hx) (by decide)⟩

/-- C2 witness: the envelope of the concrete successful run on baseEnv
satisfies the exclusivity invariant. -/
theorem compare_envelope_exclusive_witness :
    (baseResult.result.isSome = true ∧ baseResult.error = none ∨
      baseResult.result = none ∧ baseResult.error.isSome = true) ∧
    (baseResult.status = "success" ↔ baseResult.result.isSome = true) ∧
    (baseResult.status = "error" ↔ baseResult.error.isSome = true) := by
  have h : compare baseEnv "o.png" "a.png" (some "c1") 0 = (.ok baseResult, baseFinal) := by
    rfl
  exact compare_envelope_exclusive baseEnv "o.png" "a.png" (some "c1") 0 baseResult baseFinal h

/-- C3: in every run of compare that returns a success envelope, the
collaborators were invoked exactly in the order parse(original),
parse(amendment), contextualize, extract, once each; in particular the
amendment parse only starts after the original parse completed. -/
theorem compare_stage_order (env : Env) (p1 p2 : String) (cid : Option String) (c0 : Nat)
    (r : ProcessingResult) (s : PState)
    (h : compare env p1 p2 cid c0 = (.ok r, s)) (hs : r.status = "success") :
    stageEvents s.events =
      [.parseEv p1 "original", .parseEv p2 "amendment", .ctxEv, .extractEv] := by
  simp only [compare] at h
  rcases ht : tryBody env p1 p2 (Option.getD cid env.newUuid) c0 ⟨c0, []⟩ with ⟨tres, ts⟩
  rw [ht] at h
  cases tres with
  | ok tr =>
      simp only [Prod.mk.injEq, Except.ok.injEq] at h
      obtain ⟨hr, hss⟩ := h
      subst hr
      subst hss
      obtain ⟨v, -, hstage⟩ :=
        tryBody_ok_elim env p1 p2 (Option.getD cid env.newUuid) c0 ⟨c0, []⟩ ht
      simpa [stageEvents] using hstage
  | error e =>
      simp only [Prod.mk.injEq, Except.ok.injEq] at h
      obtain ⟨hr, -⟩ := h
      subst hr
      exact absurd (show ("error" : String) = "success" from hs) (by decide)

/-- C3 witness: on the concrete deterministic environment the stage
calls are exactly the four stages in order. -/
theorem compare_stage_order_witness :
    stageEvents baseFinal.events =
      [.parseEv "o.png" "original", .parseEv "a.png" "amendment", .ctxEv, .extractEv] := by
  have h : compare baseEnv "o.png" "a.png" (some "c1") 0 = (.ok baseResult, baseFinal) := by
    rfl
  exact compare_stage_order baseEnv "o.png" "a.png" (some "c1") 0 baseResult baseFinal h rfl

/-- C4: if the amendment-parsing stage raises (the original parse having
succeeded, with a non-raising or absent progress callback), the
contextualization and extraction agents are never invoked, and compare
returns an envelope with status error, a null result, and a non-null
processing_time_ms. -/
theorem compare_short_circuit (env : Env) (p1 p2 : String) (cid : Option String) (c0 : Nat)
    (d : DocumentStructure) (e : String)
    (hcb : ∀ cb, env.progressCallback = some cb → ∀ u, cb u = .ok ())
    (h1 : env.parse p1 "original" = .ok d)
    (h2 : env.parse p2 "amendment" = .error e) :
    ∃ (r : ProcessingResult) (s : PState), compare env p1 p2 cid c0 = (.ok r, s) ∧
      r.status = "error" ∧ r.result = none ∧ r.error = some e ∧
      r.processing_time_ms.isSome = true ∧
      Event.ctxEv ∉ s.events ∧ Event.extractEv ∉ s.events := by
  have hfst : (tryBody env p1 p2 (Option.getD cid env.newUuid) c0 ⟨c0, []⟩).1 = .error e := by
    simp only [tryBody, andThen_reportProgress env hcb, andThen_runParse_ok h1,
      andThen_runParse_error h2]
  have hstage : stageEvents (tryBody env p1 p2 (Option.getD cid env.newUuid) c0
      ⟨c0, []⟩).2.events = [.parseEv p1 "original", .parseEv p2 "amendment"] := by
    simp only [tryBody, andThen_reportProgress env hcb, andThen_runParse_ok h1,
      andThen_runParse_error h2]
    simp only [runParse_stage, reportProgress_stage]
    simp [stageEvents]
  have hpair : tryBody env p1 p2 (Option.getD cid env.newUuid) c0 ⟨c0, []⟩ =
      (.error e, (tryBody env p1 p2 (Option.getD cid env.newUuid) c0 ⟨c0, []⟩).2) := by
    rw [← hfst]
  refine ⟨⟨Option.getD cid env.newUuid, "error", none, some e, env.traceId,
      some ((tryBody env p1 p2 (Option.getD cid env.newUuid) c0 ⟨c0, []⟩).2.clock - c0)⟩,
    (tryBody env p1 p2 (Option.getD cid env.newUuid) c0 ⟨c0, []⟩).2,
    by simp only [compare]; rw [hpair], rfl, rfl, rfl, rfl, ?_, ?_⟩
  · intro hm
    have hmem : Event.ctxEv ∈ stageEvents (tryBody env p1 p2 (Option.getD cid env.newUuid)
        c0 ⟨c0, []⟩).2.events := List.mem_filter.mpr ⟨hm, rfl⟩
    rw [hstage] at hmem
    simp at hmem
  · intro hm
    have hmem : Event.extractEv ∈ stageEvents (tryBody env p1 p2 (Option.getD cid env.newUuid)
        c0 ⟨c0, []⟩).2.events := List.mem_filter.mpr ⟨hm, rfl⟩
    rw [hstage] at hmem
    simp at hmem

/-- C4 witness: on the environment whose parser fails on the amendment
image, compare short-circuits into an error envelope. -/
theorem compare_short_circuit_witness :
    ∃ (r : ProcessingResult) (s : PState),
      compare amendFailEnv "o.png" "a.png" (some "c1") 0 = (.ok r, s) ∧
      r.status = "error" ∧ r.result = none ∧ r.error = some "cannot read amendment image" ∧
      r.processing_time_ms.isSome = true ∧
      Event.ctxEv ∉ s.events ∧ Event.extractEv ∉ s.events :=
  compare_short_circuit amendFailEnv "o.png" "a.png" (some "c1") 0
    (sampleDoc "Original" "original") "cannot read amendment image"
    (fun cb hcb => by simp [amendFailEnv, baseEnv] at hcb) rfl rfl

/-- C5: every envelope returned by compare, on the success and on the
error path, carries processing_time_ms equal to the wall-clock time
elapsed between entering compare and constructing the envelope (the
final clock minus the entry clock; collaborator calls are the only
clock advances, the callback and tracing being non-blocking). -/
theorem compare_processing_time (env : Env) (p1 p2 : String) (cid : Option String)
    (c0 : Nat) (r : ProcessingResult) (s : PState)
    (h : compare env p1 p2 cid c0 = (.ok r, s)) :
    r.processing_time_ms = some (s.clock - c0) := by
  simp only [compare] at h
  rcases ht : tryBody env p1 p2 (Option.getD cid env.newUuid) c0 ⟨c0, []⟩ with ⟨tres, ts⟩
  rw [ht] at h
  cases tres with
  | ok tr =>
      simp only [Prod.mk.injEq, Except.ok.injEq] at h
      obtain ⟨hr, hss⟩ := h
      subst hr
      subst hss
      obtain ⟨v, hv, -⟩ :=
        tryBody_ok_elim env p1 p2 (Option.getD cid env.newUuid) c0 ⟨c0, []⟩ ht
      rw [hv]
  | error e =>
      simp only [Prod.mk.injEq, Except.ok.injEq] at h
      obtain ⟨hr, hss⟩ := h
      subst hr
      subst hss
      rfl

/-- C5 witness: the concrete successful run reports exactly the elapsed
26 milliseconds of the four stage calls. -/
theorem compare_processing_time_witness :
    baseResult.processing_time_ms = some (baseFinal.clock - 0) := by
  have h : compare baseEnv "o.png" "a.png" (some "c1") 0 = (.ok baseResult, baseFinal) := by
    rfl
  exact compare_processing_time baseEnv "o.png" "a.png" (some "c1") 0 baseResult baseFinal h

/-- C6: evaluation of the extraction agent at the failing input.  When
the upstream JSON payload parses but omits summary_of_the_change, the
code substitutes the generic sentence, which is 35 characters long and
therefore below the 50-character validation floor, so the agent raises
instead of returning a valid ContractChangeResult as the claim states. -/
theorem extraction_missing_summary_fails :
    extractionAgentBuild missingSummaryPayload =
      .error "Invalid extraction result: summary_of_the_change" ∧
    fallbackSummary.length = 35 ∧ fallbackSummary.length < 50 :=
  ⟨rfl, rfl, by decide⟩

/-- C7: whenever the extraction agent returns a result from a payload
whose sections_changed is missing or empty, that result's
sections_changed equals the single-element fallback, and likewise for
topics_touched. -/
theorem extraction_fallback_defaults (p : ExtractionPayload) (r : ContractChangeResult)
    (h : extractionAgentBuild p = .ok r) :
    ((p.sections_changed = none ∨ p.sections_changed = some []) →
      r.sections_changed = ["General"]) ∧
    ((p.topics_touched = none ∨ p.topics_touched = some []) →
      r.topics_touched = ["Contract Terms"]) := by
  unfold extractionAgentBuild at h
  cases hv : validateContractChangeResult (listOrDefault p.sections_changed ["General"])
      (listOrDefault p.topics_touched ["Contract Terms"])
      (Option.getD p.summary_of_the_change fallbackSummary) with
  | ok v =>
      rw [hv] at h
      simp only [Except.ok.injEq] at h
      subst h
      have hveq := validateContractChangeResult_ok_elim hv
      constructor
      · rintro (hc | hc) <;> rw [hveq] <;> simp [hc, listOrDefault]
      · rintro (hc | hc) <;> rw [hveq] <;> simp [hc, listOrDefault]
  | error errs =>
      rw [hv] at h
      simp at h

/-- C7 witness: a payload missing sections_changed and with an empty
topics_touched yields exactly the two generic fallbacks. -/
theorem extraction_fallback_defaults_witness :
    extractionAgentBuild thinPayload =
      .ok ⟨["General"], ["Contract Terms"], sampleSummary⟩ ∧
    (⟨["General"], ["Contract Terms"], sampleSummary⟩ :
      ContractChangeResult).sections_changed = ["General"] ∧
    (⟨["General"], ["Contract Terms"], sampleSummary⟩ :
      ContractChangeResult).topics_touched = ["Contract Terms"] := by
  have h : extractionAgentBuild thinPayload =
      .ok ⟨["General"], ["Contract Terms"], sampleSummary⟩ := by rfl
  refine ⟨h, ?_, ?_⟩
  · exact (extraction_fallback_defaults thinPayload _ h).1 (Or.inl rfl)
  · exact (extraction_fallback_defaults thinPayload _ h).2 (Or.inr rfl)

/-- C8: constructing a ContractChangeResult fails with a validation
error naming the offending field whenever sections_changed is empty,
topics_touched is empty, or the summary is shorter than 50 characters;
and succeeds with non-empty lists and a summary of exactly 50
characters. -/
theorem contract_change_result_validation (sects topics : List String) (su : String) :
    (sects = [] →
      validateContractChangeResult sects topics su =
        .error (contractChangeResultErrors sects topics su) ∧
      "sections_changed" ∈ contractChangeResultErrors sects topics su) ∧
    (topics = [] →
      validateContractChangeResult sects topics su =
        .error (contractChangeResultErrors sects topics su) ∧
      "topics_touched" ∈ contractChangeResultErrors sects topics su) ∧
    (su.length < 50 →
      validateContractChangeResult sects topics su =
        .error (contractChangeResultErrors sects topics su) ∧
      "summary_of_the_change" ∈ contractChangeResultErrors sects topics su) ∧
    (sects ≠ [] → topics ≠ [] → su.length = 50 →
      validateContractChangeResult sects topics su = .ok ⟨sects, topics, su⟩) := by
  refine ⟨?_, ?_, ?_, ?_⟩
  · intro hc
    subst hc
    have hmem : "sections_changed" ∈ contractChangeResultErrors [] topics su := by
      simp [contractChangeResultErrors]
    have hne : contractChangeResultErrors [] topics su ≠ [] := by
      intro h0
      rw [h0] at hmem
      exact absurd hmem (List.not_mem_nil _)
    exact ⟨by simp [validateContractChangeResult, hne], hmem⟩
  · intro hc
    subst hc
    have hmem : "topics_touched" ∈ contractChangeResultErrors sects [] su := by
      simp [contractChangeResultErrors]
    have hne : contractChangeResultErrors sects [] su ≠ [] := by
      intro h0
      rw [h0] at hmem
      exact absurd hmem (List.not_mem_nil _)
    exact ⟨by simp [validateContractChangeResult, hne], hmem⟩
  · intro hc
    have hmem : "summary_of_the_change" ∈ contractChangeResultErrors sects topics su := by
      simp [contractChangeResultErrors, hc]
    have hne : contractChangeResultErrors sects topics su ≠ [] := by
      intro h0
      rw [h0] at hmem
      exact absurd hmem (List.not_mem_nil _)
    exact ⟨by simp [validateContractChangeResult, hne], hmem⟩
  · intro hs ht h50
    have e1 : ¬ sects.length < 1 := by
      simpa [Nat.lt_one_iff, List.length_eq_zero] using hs
    have e2 : ¬ topics.length < 1 := by
      simpa [Nat.lt_one_iff, List.length_eq_zero] using ht
    have e3 : ¬ su.length < 50 := by
      rw [h50]
      exact lt_irrefl 50
    simp [validateContractChangeResult, contractChangeResultErrors, e1, e2, e3]

/-- C8 witness: the empty sections list is rejected with an error naming
sections_changed, while non-empty lists and an exactly-50-character
summary are accepted. -/
theorem contract_change_result_validation_witness :
    "sections_changed" ∈ contractChangeResultErrors [] ["Payment"] fiftyA ∧
    validateContractChangeResult ["Section 1"] ["Payment"] fiftyA =
      .ok ⟨["Section 1"], ["Payment"], fiftyA⟩ :=
  ⟨((contract_change_result_validation [] ["Payment"] fiftyA).1 rfl).2,
   (contract_change_result_validation ["Section 1"] ["Payment"] fiftyA).2.2.2
     (by decide) (by decide) (by decide)⟩

/-- C9 counterexample: with the always-throwing progress callback the
pipeline IS aborted - no stage collaborator runs - and the outcome of
compare differs from the outcome with no callback, refuting the claimed
fire-and-forget semantics on this concrete input. -/
theorem callback_throw_cex :
    stageEvents (compare throwingEnv "o.png" "a.png" (some "c1") 0).2.events = [] ∧
    (compare throwingEnv "o.png" "a.png" (some "c1") 0).1.toOption ≠
      (compare baseEnv "o.png" "a.png" (some "c1") 0).1.toOption := by
  constructor
  · rfl
  · intro h
    have h1 : (compare throwingEnv "o.png" "a.png" (some "c1") 0).1.toOption =
        some ⟨"c1", "error", none, some "callback boom", some "trace-1", some 0⟩ := rfl
    have h2 : (compare baseEnv "o.png" "a.png" (some "c1") 0).1.toOption =
        some baseResult := rfl
    rw [h1, h2] at h
    simp [baseResult] at h

/-- C9 amended: a progress callback that throws on its first invocation
aborts the pipeline - no stage collaborator is invoked - and the
exception is caught at the compare boundary, which still returns a
ProcessingResult envelope with status error carrying the callback's
message (it is not propagated to the caller). -/
theorem callback_throw_aborts (env : Env) (cb : ProgressUpdate → Except String Unit)
    (m p1 p2 : String) (cid : Option String) (c0 : Nat)
    (hcb : env.progressCallback = some cb)
    (hthrow : cb ⟨"Step 1/5", 10, "Parsing original contract...", "processing"⟩ = .error m) :
    compare env p1 p2 cid c0 =
      (.ok ⟨Option.getD cid env.newUuid, "error", none, some m, env.traceId, some 0⟩,
       ⟨c0, [.progressEv "Step 1/5" 10 "Parsing original contract..." "processing"]⟩) ∧
    stageEvents [Event.progressEv "Step 1/5" 10 "Parsing original contract..." "processing"] =
      [] := by
  have hrp : reportProgress env "Step 1/5" 10 "Parsing original contract..." ⟨c0, []⟩ =
      (.error m,
       ⟨c0, [.progressEv "Step 1/5" 10 "Parsing original contract..." "processing"]⟩) := by
    simp [reportProgress, hcb, hthrow, logEvent]
  constructor
  · simp [compare, tryBody, hrp, andThen]
  · rfl

/-- C9 witness: the amended behaviour at the concrete throwing
environment. -/
theorem callback_throw_aborts_witness :
    compare throwingEnv "o.png" "a.png" (some "c1") 0 =
      (.ok ⟨"c1", "error", none, some "callback boom", some "trace-1", some 0⟩,
       ⟨0, [.progressEv "Step 1/5" 10 "Parsing original contract..." "processing"]⟩) ∧
    stageEvents [Event.progressEv "Step 1/5" 10 "Parsing original contract..." "processing"] =
      [] :=
  callback_throw_aborts throwingEnv throwingCb "callback boom" "o.png" "a.png"
    (some "c1") 0 rfl rfl

/-- C10 counterexample: the contextualization agent produces records
keyed original_section, amendment_section and status - not relationship
- and passes the upstream status value through unconstrained, refuting
the claimed record shape on this concrete input. -/
theorem contextualization_relationship_cex :
    (contextualizationAgentBuild (sampleDoc "Original" "original")
        (sampleDoc "Amendment" "amendment") [oddMapping] "n").corresponding_sections =
      [[("original_section", "1. Parties"), ("amendment_section", "1. Parties"),
        ("status", "rewritten-beyond-recognition")]] ∧
    specRecordOk [("original_section", "1. Parties"), ("amendment_section", "1. Parties"),
      ("status", "rewritten-beyond-recognition")] = false :=
  ⟨rfl, rfl⟩

/-- C10 amended: every record in the corresponding_sections of a
ContextualizationResult produced by the contextualization agent is an
association list with exactly the keys original_section,
amendment_section and status, in that order, each converted from one
upstream record (status defaulting to modified when absent upstream,
otherwise passed through without constraint). -/
theorem contextualization_record_shape (o a : DocumentStructure)
    (l : List UpstreamSectionMapping) (notes : String) (r : List (String × String))
    (h : r ∈ (contextualizationAgentBuild o a l notes).corresponding_sections) :
    r.map Prod.fst = ["original_section", "amendment_section", "status"] ∧
    ∃ m ∈ l, r = convertSectionMapping m ∧
      (m.status = none → r.lookup "status" = some "modified") := by
  simp only [contextualizationAgentBuild, convertSectionMappings, List.mem_map] at h
  obtain ⟨m, hm, hr⟩ := h
  subst hr
  refine ⟨rfl, m, hm, rfl, fun hnone => ?_⟩
  simp [convertSectionMapping, hnone, List.lookup]

/-- C10 amended witness: the record converted from an upstream mapping
without a status key has the three keys and the default status. -/
theorem contextualization_record_shape_witness :
    (convertSectionMapping defaultMapping).map Prod.fst =
      ["original_section", "amendment_section", "status"] ∧
    ∃ m ∈ [defaultMapping], convertSectionMapping defaultMapping = convertSectionMapping m ∧
      (m.status = none →
        (convertSectionMapping defaultMapping).lookup "status" = some "modified") :=
  contextualization_record_shape (sampleDoc "Original" "original")
    (sampleDoc "Amendment" "amendment") [defaultMapping] "n"
    (convertSectionMapping defaultMapping) (by simp [contextualizationAgentBuild,
      convertSectionMappings])

end ContractPipeline
